import Mathlib

/-!
Shallow embedding of the single source file `src/frontend/legacy-app.tsx`.

The component `App` holds view state (`isLoading : Bool`, `error : String`,
`creative : object or null`) and a submit handler that issues one POST to
`http://127.0.0.1:8000/generate`, then settles the state in a
try / catch / finally block.

Modelling decisions, each tied to a line of the source:
* The handler is embedded as the list of state-mutation and fetch events it
  performs, in source order (`setIsLoading(true)`, `setError("")`,
  `setCreative(null)`, the fetch, the settlement event, `setIsLoading(false)`),
  so claims about ordering ("before the request is issued", "as a final step")
  are statable.  Replaying the events over a `ViewState` gives the settled state.
* The result of awaiting the fetch is an explicit `FetchOutcome`: the promise
  rejects with a message (network error), or a response arrives with an `ok`
  flag and a body; `response.json()` on the body either throws (malformed) or
  yields a value, where `parsed none` stands for a falsy parse result such as
  JSON `null` (the JSX guard `creative && ...` treats it as absent).
* The handler returns `Except Failure (List Event)`: an `Except.error` would be
  an exception escaping the handler.  The embedded catch clause, like the
  source's `catch (err) { setError(err.message) }`, handles every thrown
  failure, so the handler in fact always returns `Except.ok`.
* `Creative` fields are kept as the strings their interpolation into the JSX
  produces (the component never inspects them, it only interpolates), so
  `performance_score` can hold any rendering, numeric-looking or not.
* JS string truthiness: the error block `{error && ...}` renders iff the error
  string is nonempty; the result grid `{creative && ...}` renders iff
  `creative` is non-null.
-/

namespace LegacyApp

/-- The three controlled form inputs of `App`. -/
structure Inputs where
  programName : String
  targetAudience : String
  isLocalized : Bool
deriving DecidableEq

/-- The generation result stored in the `creative` state variable.  Each field
is held as the string its JSX interpolation produces. -/
structure Creative where
  ad_copy_1 : String
  ad_copy_2 : String
  creative_brief : String
  performance_score : String
deriving DecidableEq

/-- The JSON body built by `JSON.stringify` in `handleSubmit`. -/
structure RequestBody where
  program_name : String
  target_audience : String
  localize : Bool
deriving DecidableEq

/-- The outbound request passed to `fetch`. -/
structure Request where
  url : String
  method : String
  contentType : String
  body : RequestBody
deriving DecidableEq

/-- What `response.json()` does on the success path: throw with a message, or
yield a value (`parsed none` models a falsy result such as JSON null). -/
inductive BodyParse where
  | malformed (msg : String)
  | parsed (v : Option Creative)
deriving DecidableEq

/-- How the awaited `fetch` settles: the promise rejects with a message
(network-level failure), or a response arrives with its `ok` flag and body. -/
inductive FetchOutcome where
  | netError (msg : String)
  | response (ok : Bool) (body : BodyParse)
deriving DecidableEq

/-- A thrown JS failure, identified by its `message`. -/
inductive Failure where
  | thrown (msg : String)
deriving DecidableEq

/-- One observable step of the handler: a `setState` call or the fetch call. -/
inductive Event where
  | setLoading (b : Bool)
  | setError (msg : String)
  | setCreative (c : Option Creative)
  | fetchIssued (r : Request)
deriving DecidableEq

/-- The view state of `App`: `isLoading`, `error` (empty string when absent, as
initialised by `useState("")`), `creative` (`none` when absent). -/
structure ViewState where
  isLoading : Bool
  error : String
  creative : Option Creative
deriving DecidableEq

/-- The request built in `handleSubmit`: POST to the fixed URL with the JSON
body assembled from the three inputs. -/
def buildRequest (inp : Inputs) : Request :=
  { url := "http://127.0.0.1:8000/generate"
    method := "POST"
    contentType := "application/json"
    body := { program_name := inp.programName
              target_audience := inp.targetAudience
              localize := inp.isLocalized } }

/-- The try block of `handleSubmit`: call `fetch`; if the response is not ok,
throw the fixed message; otherwise parse the body (which may itself throw) and
store it with `setCreative`.  Returns the events performed inside the block and
whether it completed or threw. -/
def tryBody (inp : Inputs) (o : FetchOutcome) : List Event × Except Failure Unit :=
  let issued := [Event.fetchIssued (buildRequest inp)]
  match o with
  | .netError msg => (issued, Except.error (Failure.thrown msg))
  | .response ok body =>
      if ok then
        match body with
        | .malformed msg => (issued, Except.error (Failure.thrown msg))
        | .parsed v => (issued ++ [Event.setCreative v], Except.ok ())
      else (issued, Except.error (Failure.thrown "Failed to generate creative."))

/-- The catch clause `catch (err) { setError(err.message) }`. -/
def catchClause : Failure → List Event
  | .thrown msg => [Event.setError msg]

/-- The whole submit handler: the three opening `setState` calls, the try block,
the catch clause on a thrown failure, and the `finally` step
`setIsLoading(false)`.  An `Except.error` result would be an exception escaping
the handler; since the catch clause handles every `Failure`, the handler always
returns `Except.ok` with its event trace. -/
def handleSubmit (inp : Inputs) (o : FetchOutcome) : Except Failure (List Event) :=
  let start := [Event.setLoading true, Event.setError "", Event.setCreative none]
  let tb := tryBody inp o
  let handled :=
    match tb.2 with
    | Except.ok _ => []
    | Except.error f => catchClause f
  Except.ok (start ++ tb.1 ++ handled ++ [Event.setLoading false])

/-- Effect of one event on the view state (the fetch call itself mutates
nothing). -/
def applyEvent (s : ViewState) : Event → ViewState
  | .setLoading b => { s with isLoading := b }
  | .setError m => { s with error := m }
  | .setCreative c => { s with creative := c }
  | .fetchIssued _ => s

/-- Replay a list of events over a view state. -/
def runEvents (s : ViewState) (es : List Event) : ViewState :=
  es.foldl applyEvent s

/-- The event trace of one submission. -/
def traceOf (inp : Inputs) (o : FetchOutcome) : List Event :=
  match handleSubmit inp o with
  | Except.ok evs => evs
  | Except.error _ => []

/-- The view state after one submission settles, starting from a prior state. -/
def settledState (inp : Inputs) (s : ViewState) (o : FetchOutcome) : ViewState :=
  runEvents s (traceOf inp o)

/-- The requests issued during a trace. -/
def requestsOf (es : List Event) : List Request :=
  es.filterMap fun e =>
    match e with
    | Event.fetchIssued r => some r
    | _ => none

/-- One rendered `creative-card` (the inline `CreativeDisplay` component). -/
structure Card where
  title : String
  content : String
deriving DecidableEq

/-- The three cards rendered inside `creatives-grid`, in source order. -/
def creativeCards (c : Creative) : List Card :=
  [ { title := "Ad Copy 1", content := c.ad_copy_1 }
  , { title := "Ad Copy 2", content := c.ad_copy_2 }
  , { title := "Creative Brief", content := c.creative_brief } ]

/-- The CTR line of the feedback section, interpolating `performance_score`. -/
def ctrLine (c : Creative) : String :=
  "Predicted Click-Through Rate (CTR): " ++ c.performance_score ++ "%"

/-- What the outcome-dependent part of the page shows: the error block (only
when the error string is truthy), the result cards and the CTR line (only when
`creative` is non-null). -/
structure Rendered where
  errorBlock : Option String
  cards : List Card
  ctrText : Option String
deriving DecidableEq

/-- Rendering of a view state, following the JSX truthiness guards
`{error && ...}` and `{creative && ...}`. -/
def render (s : ViewState) : Rendered :=
  { errorBlock := if s.error = "" then none else some s.error
    cards :=
      match s.creative with
      | none => []
      | some c => creativeCards c
    ctrText := Option.map ctrLine s.creative }

/-- A result is present when `creative` is non-null. -/
def resultPresent (s : ViewState) : Prop := s.creative ≠ none

/-- An error is present when the error string is truthy (nonempty). -/
def errorPresent (s : ViewState) : Prop := s.error ≠ ""

/-- Exactly one terminal state: result present and error absent, or error
present and result absent. -/
def terminalXor (s : ViewState) : Prop :=
  (resultPresent s ∧ ¬ errorPresent s) ∨ (errorPresent s ∧ ¬ resultPresent s)

/-- The claim that a submission's exception escapes the handler. -/
def escapesHandler (inp : Inputs) (o : FetchOutcome) : Prop :=
  ∃ f, handleSubmit inp o = Except.error f

/-- A concrete filled-in form, used for concrete evaluations. -/
def inp0 : Inputs :=
  { programName := "Data Science Masters"
    targetAudience := "Working professionals"
    isLocalized := false }

/-- A concrete prior view state carrying a stale error and a stale result. -/
def s0 : ViewState :=
  { isLoading := false
    error := "stale error"
    creative := some { ad_copy_1 := "old1", ad_copy_2 := "old2"
                       creative_brief := "old brief", performance_score := "3" } }

/-- The concrete success body of the spec's acceptance example. -/
def creativeABC : Creative :=
  { ad_copy_1 := "A", ad_copy_2 := "B", creative_brief := "C"
    performance_score := "12.5" }

end LegacyApp

namespace LegacyApp

/-- Helper: the submit handler never returns an escaping exception; it always
returns `Except.ok` carrying its event trace, because the catch clause handles
every thrown failure. -/
theorem handleSubmit_ok (inp : Inputs) (o : FetchOutcome) :
    handleSubmit inp o = Except.ok (traceOf inp o) := rfl

/-- Helper: no submission's exception escapes the handler. -/
theorem not_escapesHandler (inp : Inputs) (o : FetchOutcome) : ¬ escapesHandler inp o := by
  unfold escapesHandler
  rintro ⟨f, hf⟩
  rw [handleSubmit_ok] at hf
  exact Except.noConfusion hf

/-- C1 counterexample: a submission settling with a thrown failure whose
message is the empty string leaves the error string empty and the result
absent, so neither terminal state is present and the claimed XOR fails. -/
theorem C1_counterexample :
    (settledState inp0 s0 (FetchOutcome.netError "")).error = "" ∧
    (settledState inp0 s0 (FetchOutcome.netError "")).creative = none ∧
    ¬ terminalXor (settledState inp0 s0 (FetchOutcome.netError "")) := by
  refine ⟨rfl, rfl, ?_⟩
  have hs : settledState inp0 s0 (FetchOutcome.netError "") =
      { isLoading := false, error := "", creative := none } := rfl
  rw [hs]
  simp [terminalXor, resultPresent, errorPresent]

/-- C1 (amended): when a submission settles, the view state is in exactly one
terminal state (result present XOR error present), provided the settling
failure's message is nonempty and a success body does not parse to a
null/falsy value. -/
theorem C1_settles_to_exactly_one_terminal (inp : Inputs) (s : ViewState) (o : FetchOutcome)
    (h1 : o ≠ FetchOutcome.netError "")
    (h2 : o ≠ FetchOutcome.response true (BodyParse.malformed ""))
    (h3 : o ≠ FetchOutcome.response true (BodyParse.parsed none)) :
    terminalXor (settledState inp s o) := by
  unfold terminalXor resultPresent errorPresent
  cases o with
  | netError msg =>
      have hm : msg ≠ "" := fun h => h1 (by rw [h])
      have hs : settledState inp s (FetchOutcome.netError msg) =
          { isLoading := false, error := msg, creative := none } := rfl
      rw [hs]
      exact Or.inr ⟨hm, by simp⟩
  | response ok body =>
      cases ok with
      | false =>
          have hs : settledState inp s (FetchOutcome.response false body) =
              { isLoading := false, error := "Failed to generate creative.",
                creative := none } := rfl
          rw [hs]
          exact Or.inr ⟨by decide, by simp⟩
      | true =>
          cases body with
          | malformed msg =>
              have hm : msg ≠ "" := fun h => h2 (by rw [h])
              have hs : settledState inp s
                    (FetchOutcome.response true (BodyParse.malformed msg)) =
                  { isLoading := false, error := msg, creative := none } := rfl
              rw [hs]
              exact Or.inr ⟨hm, by simp⟩
          | parsed v =>
              cases v with
              | none => exact absurd rfl h3
              | some c =>
                  have hs : settledState inp s
                        (FetchOutcome.response true (BodyParse.parsed (some c))) =
                      { isLoading := false, error := "", creative := some c } := rfl
                  rw [hs]
                  exact Or.inl ⟨by simp, by simp⟩

/-- C1 witness: the amended invariant at a concrete failing submission with a
nonempty message. -/
theorem C1_witness :
    terminalXor (settledState inp0 s0 (FetchOutcome.netError "network down")) :=
  C1_settles_to_exactly_one_terminal inp0 s0 (FetchOutcome.netError "network down")
    (by decide) (by decide) (by decide)

/-- C2 counterexample: on a success response with a malformed body, the handler
does NOT let the parse failure escape; it returns normally and the failure's
message is stored as the error, refuting the claimed unhandled rejection. -/
theorem C2_counterexample :
    handleSubmit inp0 (FetchOutcome.response true (BodyParse.malformed "Unexpected token")) =
      Except.ok (traceOf inp0
        (FetchOutcome.response true (BodyParse.malformed "Unexpected token"))) ∧
    (settledState inp0 s0
        (FetchOutcome.response true (BodyParse.malformed "Unexpected token"))).error =
      "Unexpected token" ∧
    ¬ escapesHandler inp0 (FetchOutcome.response true (BodyParse.malformed "Unexpected token")) :=
  ⟨rfl, rfl, not_escapesHandler inp0 _⟩

/-- C2 (amended): when a success response carries a malformed body, the parse
failure is caught by the submit handler's catch clause: its message is stored
as the error, the result stays absent, and nothing escapes the handler. -/
theorem C2_malformed_body_caught (inp : Inputs) (s : ViewState) (msg : String) :
    (settledState inp s (FetchOutcome.response true (BodyParse.malformed msg))).error = msg ∧
    (settledState inp s (FetchOutcome.response true (BodyParse.malformed msg))).creative = none ∧
    ¬ escapesHandler inp (FetchOutcome.response true (BodyParse.malformed msg)) :=
  ⟨rfl, rfl, not_escapesHandler inp _⟩

/-- C3: whenever the request path throws (network error, non-ok status, or
parse failure), the thrown failure's message is stored as the error and the
result is left absent; when the message is nonempty the error block shows it. -/
theorem C3_thrown_message_stored (inp : Inputs) (s : ViewState) (o : FetchOutcome) (msg : String)
    (h : (tryBody inp o).2 = Except.error (Failure.thrown msg)) :
    (settledState inp s o).error = msg ∧
    (settledState inp s o).creative = none ∧
    (msg ≠ "" → (render (settledState inp s o)).errorBlock = some msg) := by
  cases o with
  | netError m =>
      have hm : m = msg := by simpa [tryBody] using h
      subst hm
      refine ⟨rfl, rfl, fun hne => ?_⟩
      have hs : settledState inp s (FetchOutcome.netError m) =
          { isLoading := false, error := m, creative := none } := rfl
      rw [hs]
      simp [render, hne]
  | response ok body =>
      cases ok with
      | true =>
          cases body with
          | malformed m =>
              have hm : m = msg := by simpa [tryBody] using h
              subst hm
              refine ⟨rfl, rfl, fun hne => ?_⟩
              have hs : settledState inp s
                    (FetchOutcome.response true (BodyParse.malformed m)) =
                  { isLoading := false, error := m, creative := none } := rfl
              rw [hs]
              simp [render, hne]
          | parsed v => exact absurd h (by simp [tryBody])
      | false =>
          have hm : "Failed to generate creative." = msg := by simpa [tryBody] using h
          subst hm
          refine ⟨rfl, rfl, fun hne => ?_⟩
          have hs : settledState inp s (FetchOutcome.response false body) =
              { isLoading := false, error := "Failed to generate creative.",
                creative := none } := rfl
          rw [hs]
          simp [render, hne]

/-- C3 witness: a network-level exception with message "network down" leaves
the view showing error text "network down" and no result. -/
theorem C3_witness :
    (settledState inp0 s0 (FetchOutcome.netError "network down")).error = "network down" ∧
    (settledState inp0 s0 (FetchOutcome.netError "network down")).creative = none ∧
    ("network down" ≠ "" →
      (render (settledState inp0 s0 (FetchOutcome.netError "network down"))).errorBlock =
        some "network down") :=
  C3_thrown_message_stored inp0 s0 (FetchOutcome.netError "network down") "network down" rfl

/-- C4: on any non-success response status, whatever the body, the error is
exactly the fixed string, no result is stored, and the rendering shows the
error block with that string and no result cards or CTR line. -/
theorem C4_non_ok_fixed_generic_error (inp : Inputs) (s : ViewState) (body : BodyParse) :
    (settledState inp s (FetchOutcome.response false body)).error =
      "Failed to generate creative." ∧
    (settledState inp s (FetchOutcome.response false body)).creative = none ∧
    (render (settledState inp s (FetchOutcome.response false body))).errorBlock =
      some "Failed to generate creative." ∧
    (render (settledState inp s (FetchOutcome.response false body))).cards = [] ∧
    (render (settledState inp s (FetchOutcome.response false body))).ctrText = none :=
  ⟨rfl, rfl, rfl, rfl, rfl⟩

/-- C5: for valid non-empty inputs, the handler sets loading=true as its first
step and loading=false as its final step, the settled state has loading=false
on every path (success or failure), and no exception escapes the handler. -/
theorem C5_loading_lifecycle_no_escape (inp : Inputs) (s : ViewState) (o : FetchOutcome)
    (_hp : inp.programName ≠ "") (_ht : inp.targetAudience ≠ "") :
    (traceOf inp o).head? = some (Event.setLoading true) ∧
    (traceOf inp o).getLast? = some (Event.setLoading false) ∧
    (settledState inp s o).isLoading = false ∧
    handleSubmit inp o = Except.ok (traceOf inp o) := by
  cases o with
  | netError m => exact ⟨rfl, rfl, rfl, rfl⟩
  | response ok body => cases ok <;> cases body <;> exact ⟨rfl, rfl, rfl, rfl⟩

/-- C5 witness: the loading lifecycle at a concrete non-empty input pair and a
concrete failing outcome. -/
theorem C5_witness :
    inp0.programName ≠ "" ∧ inp0.targetAudience ≠ "" ∧
    ((traceOf inp0 (FetchOutcome.netError "boom")).head? = some (Event.setLoading true) ∧
     (traceOf inp0 (FetchOutcome.netError "boom")).getLast? = some (Event.setLoading false) ∧
     (settledState inp0 s0 (FetchOutcome.netError "boom")).isLoading = false ∧
     handleSubmit inp0 (FetchOutcome.netError "boom") =
       Except.ok (traceOf inp0 (FetchOutcome.netError "boom"))) :=
  ⟨by decide, by decide,
    C5_loading_lifecycle_no_escape inp0 s0 (FetchOutcome.netError "boom")
      (by decide) (by decide)⟩

/-- C6: at the start of every submission, before the fetch event, the handler
sets loading=true and clears the prior error and result, whatever they were. -/
theorem C6_start_clears_before_fetch (inp : Inputs) (s : ViewState) (o : FetchOutcome) :
    (traceOf inp o).take 4 =
      [Event.setLoading true, Event.setError "", Event.setCreative none,
        Event.fetchIssued (buildRequest inp)] ∧
    runEvents s ((traceOf inp o).take 3) =
      { isLoading := true, error := "", creative := none } := by
  cases o with
  | netError m => exact ⟨rfl, rfl⟩
  | response ok body => cases ok <;> cases body <;> exact ⟨rfl, rfl⟩

/-- C7: every submission issues exactly one request, a POST to the fixed
/generate URL whose JSON body is built from the three input fields, the
localize flag sent as-is. -/
theorem C7_single_post_request (inp : Inputs) (o : FetchOutcome) :
    requestsOf (traceOf inp o) = [buildRequest inp] ∧
    buildRequest inp =
      { url := "http://127.0.0.1:8000/generate"
        method := "POST"
        contentType := "application/json"
        body := { program_name := inp.programName
                  target_audience := inp.targetAudience
                  localize := inp.isLocalized } } := by
  refine ⟨?_, rfl⟩
  cases o with
  | netError m => rfl
  | response ok body => cases ok <;> cases body <;> rfl

/-- C8: after a success response with body A/B/C/12.5, the view renders
exactly the three titled cards with those contents, the CTR line with 12.5%,
and no error block. -/
theorem C8_success_example_render (inp : Inputs) (s : ViewState) :
    render (settledState inp s
        (FetchOutcome.response true (BodyParse.parsed (some creativeABC)))) =
      { errorBlock := none
        cards := [ { title := "Ad Copy 1", content := "A" }
                 , { title := "Ad Copy 2", content := "B" }
                 , { title := "Creative Brief", content := "C" } ]
        ctrText := some "Predicted Click-Through Rate (CTR): 12.5%" } := rfl

/-- C9: a submission settling with a thrown failure whose message is empty
stores the empty error, leaves the result absent, and the rendering shows
neither the error block nor the result grid nor the CTR line. -/
theorem C9_empty_message_shows_nothing (inp : Inputs) (s : ViewState) (o : FetchOutcome)
    (h : (tryBody inp o).2 = Except.error (Failure.thrown "")) :
    (settledState inp s o).error = "" ∧
    (settledState inp s o).creative = none ∧
    (render (settledState inp s o)).errorBlock = none ∧
    (render (settledState inp s o)).cards = [] ∧
    (render (settledState inp s o)).ctrText = none := by
  cases o with
  | netError m =>
      have hm : m = "" := by simpa [tryBody] using h
      subst hm
      exact ⟨rfl, rfl, rfl, rfl, rfl⟩
  | response ok body =>
      cases ok with
      | true =>
          cases body with
          | malformed m =>
              have hm : m = "" := by simpa [tryBody] using h
              subst hm
              exact ⟨rfl, rfl, rfl, rfl, rfl⟩
          | parsed v => exact absurd h (by simp [tryBody])
      | false => exact absurd h (by simp [tryBody])

/-- C9 witness: a network failure with the empty message at concrete inputs. -/
theorem C9_witness :
    (settledState inp0 s0 (FetchOutcome.netError "")).error = "" ∧
    (settledState inp0 s0 (FetchOutcome.netError "")).creative = none ∧
    (render (settledState inp0 s0 (FetchOutcome.netError ""))).errorBlock = none ∧
    (render (settledState inp0 s0 (FetchOutcome.netError ""))).cards = [] ∧
    (render (settledState inp0 s0 (FetchOutcome.netError ""))).ctrText = none :=
  C9_empty_message_shows_nothing inp0 s0 (FetchOutcome.netError "") rfl

/-- C10: for every stored result, the CTR line interpolates performance_score
verbatim between the fixed prefix and the percent sign, with no rounding,
clamping or validation. -/
theorem C10_ctr_line_verbatim (s : ViewState) (c : Creative) (h : s.creative = some c) :
    (render s).ctrText =
      some ("Predicted Click-Through Rate (CTR): " ++ c.performance_score ++ "%") := by
  simp [render, h, ctrLine]

/-- C10 witness: a score rendering outside the 0-100 range is interpolated
unchanged. -/
theorem C10_witness :
    (render { isLoading := false, error := ""
              creative := some { ad_copy_1 := "a", ad_copy_2 := "b"
                                 creative_brief := "c", performance_score := "250" } }).ctrText =
      some "Predicted Click-Through Rate (CTR): 250%" :=
  C10_ctr_line_verbatim
    { isLoading := false, error := ""
      creative := some { ad_copy_1 := "a", ad_copy_2 := "b"
                         creative_brief := "c", performance_score := "250" } }
    { ad_copy_1 := "a", ad_copy_2 := "b", creative_brief := "c"
      performance_score := "250" }
    rfl

end LegacyApp
